import Mathlib

/-!
Shallow embedding of the SWAPHANDS lost-and-found claim adjudication core:
the `DatabaseStorage` methods over the `lostFoundItems` and `lostFoundClaims`
tables (createLostFoundItem, updateLostFoundItem, createLostFoundClaim,
approveLostFoundClaim, rejectLostFoundClaim) together with the zod insert
schema for items. The database is a pair of row lists; row ids are opaque
strings supplied by the caller (standing for gen_random_uuid), and the
timestamps written by `new Date()` are a `now : Nat` parameter.
-/

/-- `claimStatusEnum`: pending / approved / rejected. -/
inductive ClaimStatus where
  | pending
  | approved
  | rejected
deriving DecidableEq

/-- A row of the `lostFoundItems` table. -/
structure LostFoundItem where
  id : String
  title : String
  description : String
  category : String
  foundLocation : String
  photos : List String
  postedBy : String
  isClaimed : Bool
  claimedBy : Option String
  createdAt : Nat
  updatedAt : Nat
deriving DecidableEq

/-- A row of the `lostFoundClaims` table. -/
structure LostFoundClaim where
  id : String
  lostFoundItemId : String
  claimantId : String
  description : String
  brand : Option String
  model : Option String
  serialNumber : Option String
  color : Option String
  purchaseDate : Option Nat
  purchaseLocation : Option String
  estimatedValue : Option Int
  additionalIdentifiers : Option String
  contactPreference : Option String
  proofFiles : List String
  identificationPhotos : List String
  status : ClaimStatus
  reviewedBy : Option String
  reviewNotes : Option String
  createdAt : Nat
  updatedAt : Nat
deriving DecidableEq

/-- The database state relevant to the adjudication core. -/
structure DB where
  items : List LostFoundItem
  claims : List LostFoundClaim
deriving DecidableEq

/-- Well-formedness: primary keys are unique in each table. -/
def WF (db : DB) : Prop :=
  (db.claims.map (fun k => k.id)).Nodup ∧ (db.items.map (fun i => i.id)).Nodup

/-- The fixed system message written by the bulk auto-reject in
`approveLostFoundClaim`. -/
def autoRejectNote : String :=
  "Automatically rejected - item was claimed by another user"

/-- drizzle's `.set` skips columns whose value is `undefined`: an omitted
optional `notes` argument leaves `reviewNotes` unchanged. -/
def setOpt (new old : Option String) : Option String :=
  match new with
  | some v => some v
  | none => old

/-- Input to `createLostFoundItem`: `InsertLostFoundItem & \x7b postedBy; photos? \x7d`
(the zod insert schema omits id, postedBy, isClaimed, claimedBy and the
timestamps, so those never appear in the input). -/
structure NewLostFoundItem where
  title : String
  description : String
  category : String
  foundLocation : String
  postedBy : String
  photos : Option (List String)
deriving DecidableEq

/-- `DatabaseStorage.createLostFoundItem`: insert with `photos: item.photos || []`;
the table defaults supply `isClaimed = false` and `claimedBy = null`. -/
def createLostFoundItem (db : DB) (item : NewLostFoundItem) (newId : String)
    (now : Nat) : DB × LostFoundItem :=
  let newItem : LostFoundItem :=
    { id := newId
      title := item.title
      description := item.description
      category := item.category
      foundLocation := item.foundLocation
      photos := item.photos.getD []
      postedBy := item.postedBy
      isClaimed := false
      claimedBy := none
      createdAt := now
      updatedAt := now }
  ({ db with items := db.items ++ [newItem] }, newItem)

/-- A `Partial<LostFoundItem>` as passed to `updateLostFoundItem`: each field
optionally present (for `claimedBy`, present-and-null is `some none`). -/
structure LostFoundItemUpdates where
  title : Option String
  description : Option String
  category : Option String
  foundLocation : Option String
  photos : Option (List String)
  postedBy : Option String
  isClaimed : Option Bool
  claimedBy : Option (Option String)
deriving DecidableEq

/-- Apply a partial update to one item row, bumping `updatedAt` (the
`\x7b ...updates, updatedAt: new Date() \x7d` set object). -/
def applyItemUpdates (u : LostFoundItemUpdates) (i : LostFoundItem)
    (now : Nat) : LostFoundItem :=
  { i with
    title := u.title.getD i.title
    description := u.description.getD i.description
    category := u.category.getD i.category
    foundLocation := u.foundLocation.getD i.foundLocation
    photos := u.photos.getD i.photos
    postedBy := u.postedBy.getD i.postedBy
    isClaimed := u.isClaimed.getD i.isClaimed
    claimedBy := u.claimedBy.getD i.claimedBy
    updatedAt := now }

/-- `DatabaseStorage.updateLostFoundItem`: single-row update keyed on id,
returning the updated row when one matched. -/
def updateLostFoundItem (db : DB) (id : String) (u : LostFoundItemUpdates)
    (now : Nat) : Option LostFoundItem × DB :=
  let items1 := db.items.map (fun i => if i.id = id then applyItemUpdates u i now else i)
  (items1.find? (fun i => i.id == id), { db with items := items1 })

/-- The errors thrown by `createLostFoundClaim`:
"Lost and found item not found", "This item has already been claimed",
"You already have a pending claim for this item". -/
inductive SubmitError where
  | notFound
  | alreadyClaimed
  | duplicatePendingClaim
deriving DecidableEq

/-- Input to `createLostFoundClaim`:
`InsertLostFoundClaim & \x7b lostFoundItemId; claimantId; proofFiles? \x7d`
(the zod insert schema omits id, status, reviewedBy, reviewNotes and the
timestamps, so those never appear in the input). -/
structure NewLostFoundClaim where
  lostFoundItemId : String
  claimantId : String
  description : String
  brand : Option String
  model : Option String
  serialNumber : Option String
  color : Option String
  purchaseDate : Option Nat
  purchaseLocation : Option String
  estimatedValue : Option Int
  additionalIdentifiers : Option String
  contactPreference : Option String
  proofFiles : Option (List String)
  identificationPhotos : Option (List String)
deriving DecidableEq

/-- `DatabaseStorage.createLostFoundClaim` (submitClaim): check the item
exists, check it is not claimed, check the claimant has no pending claim on
it, then insert with `proofFiles: claim.proofFiles || []`; the table defaults
supply `status = pending`, null reviewer fields, and `[]` for
`identificationPhotos` when omitted. -/
def createLostFoundClaim (db : DB) (c : NewLostFoundClaim) (newId : String)
    (now : Nat) : Except SubmitError (DB × LostFoundClaim) :=
  match db.items.find? (fun i => i.id == c.lostFoundItemId) with
  | none => .error .notFound
  | some item =>
    if item.isClaimed then .error .alreadyClaimed
    else
      match db.claims.find? (fun k =>
          k.lostFoundItemId == c.lostFoundItemId &&
          k.claimantId == c.claimantId &&
          decide (k.status = ClaimStatus.pending)) with
      | some _ => .error .duplicatePendingClaim
      | none =>
        let newClaim : LostFoundClaim :=
          { id := newId
            lostFoundItemId := c.lostFoundItemId
            claimantId := c.claimantId
            description := c.description
            brand := c.brand
            model := c.model
            serialNumber := c.serialNumber
            color := c.color
            purchaseDate := c.purchaseDate
            purchaseLocation := c.purchaseLocation
            estimatedValue := c.estimatedValue
            additionalIdentifiers := c.additionalIdentifiers
            contactPreference := c.contactPreference
            proofFiles := c.proofFiles.getD []
            identificationPhotos := c.identificationPhotos.getD []
            status := ClaimStatus.pending
            reviewedBy := none
            reviewNotes := none
            createdAt := now
            updatedAt := now }
        .ok ({ db with claims := db.claims ++ [newClaim] }, newClaim)

/-- Row transformer of the first update in `approveLostFoundClaim`:
set the target claim to approved, recording reviewer and notes. -/
def approveTargetUpd (claimId rev : String) (n : Option String) (now : Nat)
    (k : LostFoundClaim) : LostFoundClaim :=
  if k.id = claimId then
    { k with
      status := ClaimStatus.approved
      reviewedBy := some rev
      reviewNotes := setOpt n k.reviewNotes
      updatedAt := now }
  else k

/-- Row transformer of the item update in `approveLostFoundClaim`:
mark the item claimed by the winning claimant. -/
def claimItemUpd (itemId claimant : String) (now : Nat)
    (i : LostFoundItem) : LostFoundItem :=
  if i.id = itemId then
    { i with isClaimed := true, claimedBy := some claimant, updatedAt := now }
  else i

/-- Row transformer of the bulk update in `approveLostFoundClaim`:
reject every other still-pending claim on the same item with the fixed
system note. -/
def autoRejectUpd (itemId claimId rev : String) (now : Nat)
    (k : LostFoundClaim) : LostFoundClaim :=
  if k.lostFoundItemId = itemId ∧ k.status = ClaimStatus.pending ∧ k.id ≠ claimId then
    { k with
      status := ClaimStatus.rejected
      reviewedBy := some rev
      reviewNotes := some autoRejectNote
      updatedAt := now }
  else k

/-- `DatabaseStorage.approveLostFoundClaim`: inside one transaction, load the
claim (abort unless pending), load its item (abort if absent or claimed),
approve the claim, mark the item claimed, bulk-reject the other pending
claims on the item, and return true. The transaction is atomic, so the
function returns the whole resulting state. -/
def approveLostFoundClaim (db : DB) (claimId reviewedBy : String)
    (notes : Option String) (now : Nat) : Bool × DB :=
  match db.claims.find? (fun k => k.id == claimId) with
  | none => (false, db)
  | some claim =>
    if claim.status = ClaimStatus.pending then
      match db.items.find? (fun i => i.id == claim.lostFoundItemId) with
      | none => (false, db)
      | some item =>
        if item.isClaimed then (false, db)
        else
          (true,
           { items := db.items.map (claimItemUpd claim.lostFoundItemId claim.claimantId now)
             claims := (db.claims.map (approveTargetUpd claimId reviewedBy notes now)).map
               (autoRejectUpd claim.lostFoundItemId claimId reviewedBy now) })
    else (false, db)

/-- `DatabaseStorage.rejectLostFoundClaim`: single-row update keyed on id,
with no precondition on the current status; returns whether a row matched. -/
def rejectLostFoundClaim (db : DB) (claimId reviewedBy : String)
    (notes : Option String) (now : Nat) : Bool × DB :=
  (db.claims.any (fun k => k.id == claimId),
   { db with
     claims := db.claims.map (fun k =>
       if k.id = claimId then
         { k with
           status := ClaimStatus.rejected
           reviewedBy := some reviewedBy
           reviewNotes := setOpt notes k.reviewNotes
           updatedAt := now }
       else k) })

/-- Raw client input to `POST /api/lost-found` as seen by the zod schema:
the client may well send `isClaimed` / `claimedBy`, but the parsed type has
no such fields. -/
structure RawItemInput where
  title : String
  description : String
  category : String
  foundLocation : String
  isClaimed : Option Bool
  claimedBy : Option (Option String)
deriving DecidableEq

/-- The output type of `insertLostFoundItemSchema`: `isClaimed` and
`claimedBy` are omitted, so they are structurally absent. -/
structure InsertLostFoundItemData where
  title : String
  description : String
  category : String
  foundLocation : String
deriving DecidableEq

/-- The `itemCategoryEnum` values accepted by `z.enum`. -/
def categoryValues : List String := ["books", "gadgets", "uniforms", "other"]

/-- `insertLostFoundItemSchema.parse`: nonempty title/description/foundLocation,
category in the enum; unrecognized keys (in particular `isClaimed` and
`claimedBy`) are stripped. -/
def parseInsertLostFoundItem (r : RawItemInput) : Option InsertLostFoundItemData :=
  if 1 ≤ r.title.length ∧ 1 ≤ r.description.length ∧
     r.category ∈ categoryValues ∧ 1 ≤ r.foundLocation.length then
    some
      { title := r.title
        description := r.description
        category := r.category
        foundLocation := r.foundLocation }
  else none

/-- One call of the approve endpoint: target claim id, reviewing admin,
optional notes, and the wall-clock instant of the transaction. -/
structure ApproveCall where
  cid : String
  reviewer : String
  notes : Option String
  time : Nat
deriving DecidableEq

/-- A set of concurrent `approveLostFoundClaim` calls: since each call is one
atomic serializable transaction, any interleaving is equivalent to running
the calls in some serialization order, which is what this fold models. -/
def runApprovals (db : DB) (calls : List ApproveCall) : DB :=
  calls.foldl (fun s t => (approveLostFoundClaim s t.cid t.reviewer t.notes t.time).2) db

/-- The documented item invariant: `claimedBy` is non-null iff `isClaimed`. -/
def itemInv (i : LostFoundItem) : Prop :=
  i.claimedBy.isSome = i.isClaimed

/-- The invariant over the whole items table. -/
def dbInv (db : DB) : Prop :=
  ∀ i ∈ db.items, itemInv i

/-! ### Helper lemmas -/

theorem find_id_of_nodup {α β : Type} [BEq β] [LawfulBEq β] (f : α → β) :
    ∀ (l : List α), (l.map f).Nodup → ∀ a ∈ l, l.find? (fun x => f x == f a) = some a := by
  intro l
  induction l with
  | nil => intro _ a ha; cases ha
  | cons b t ih =>
    intro h a ha
    simp only [List.map_cons, List.nodup_cons, List.mem_map] at h
    rcases List.mem_cons.mp ha with rfl | hat
    · exact List.find?_cons_of_pos _ (by simp)
    · have hfa : f b ≠ f a := fun he => h.1 ⟨a, hat, he.symm⟩
      rw [List.find?_cons_of_neg _ (by simp [hfa])]
      exact ih h.2 a hat

theorem approve_noop_of_not_pending (db : DB) (claimId rev : String)
    (n : Option String) (now : Nat)
    (h : ∀ k ∈ db.claims, k.id = claimId → k.status ≠ ClaimStatus.pending) :
    approveLostFoundClaim db claimId rev n now = (false, db) := by
  unfold approveLostFoundClaim
  cases hf : db.claims.find? (fun x => x.id == claimId) with
  | none => rfl
  | some c =>
    have hmem := List.mem_of_find?_eq_some hf
    have hp := List.find?_some hf
    simp only [beq_iff_eq] at hp
    simp [h c hmem hp]

/-- Sample item row used in concrete instantiations. -/
def itemA : LostFoundItem :=
  { id := "i1"
    title := "Laptop"
    description := "Black laptop"
    category := "gadgets"
    foundLocation := "Library"
    photos := []
    postedBy := "a1"
    isClaimed := false
    claimedBy := none
    createdAt := 0
    updatedAt := 0 }

/-- Sample claim row constructor used in concrete instantiations. -/
def mkClaim (id itemId claimant : String) (st : ClaimStatus) : LostFoundClaim :=
  { id := id
    lostFoundItemId := itemId
    claimantId := claimant
    description := "mine"
    brand := none
    model := none
    serialNumber := none
    color := none
    purchaseDate := none
    purchaseLocation := none
    estimatedValue := none
    additionalIdentifiers := none
    contactPreference := none
    proofFiles := []
    identificationPhotos := []
    status := st
    reviewedBy := none
    reviewNotes := none
    createdAt := 0
    updatedAt := 0 }

/-- Sample submission input used in concrete instantiations. -/
def sampleNewClaim : NewLostFoundClaim :=
  { lostFoundItemId := "i1"
    claimantId := "s1"
    description := "mine"
    brand := none
    model := none
    serialNumber := none
    color := none
    purchaseDate := none
    purchaseLocation := none
    estimatedValue := none
    additionalIdentifiers := none
    contactPreference := none
    proofFiles := none
    identificationPhotos := none }

/-! ### C4 -/

/-- C4: whenever `approveClaim` is called on a claim that is absent or not
pending, or whose item is absent or already claimed, it returns false and
leaves the whole database unchanged; in particular a second call on an
already-approved or already-rejected claim returns false and mutates
nothing. -/
theorem approve_resolved_noop (db : DB) (claimId rev : String)
    (n : Option String) (now : Nat)
    (h : ∀ k ∈ db.claims, k.id = claimId →
      k.status ≠ ClaimStatus.pending ∨
      ∀ i ∈ db.items, i.id = k.lostFoundItemId → i.isClaimed = true) :
    approveLostFoundClaim db claimId rev n now = (false, db) := by
  unfold approveLostFoundClaim
  cases hf : db.claims.find? (fun x => x.id == claimId) with
  | none => rfl
  | some c =>
    have hmem := List.mem_of_find?_eq_some hf
    have hp := List.find?_some hf
    simp only [beq_iff_eq] at hp
    rcases h c hmem hp with hns | hitem
    · simp [hns]
    · by_cases hcp : c.status = ClaimStatus.pending
      · cases hfi : db.items.find? (fun x => x.id == c.lostFoundItemId) with
        | none => simp [hcp, hfi]
        | some i =>
          have himem := List.mem_of_find?_eq_some hfi
          have hip := List.find?_some hfi
          simp only [beq_iff_eq] at hip
          simp [hcp, hfi, hitem i himem hip]
      · simp [hcp]

theorem approve_resolved_noop_witness :
    approveLostFoundClaim
      ⟨[itemA], [mkClaim "k1" "i1" "s1" ClaimStatus.approved]⟩ "k1" "a1" (some "x") 5 =
      (false, ⟨[itemA], [mkClaim "k1" "i1" "s1" ClaimStatus.approved]⟩) :=
  approve_resolved_noop _ "k1" "a1" (some "x") 5 (by decide)

/-! ### C5 -/

/-- C5: `submitClaim` checks its preconditions in order: NotFound when the
item is absent; otherwise AlreadyClaimed when the item is claimed (even if
no claim is pending on it); otherwise DuplicatePendingClaim when the same
claimant already has a pending claim on the item; otherwise it succeeds —
so a claimant whose earlier claim was rejected can submit a new one. -/
theorem submit_checks_in_order (db : DB) (c : NewLostFoundClaim)
    (newId : String) (now : Nat) :
    (db.items.find? (fun i => i.id == c.lostFoundItemId) = none →
      createLostFoundClaim db c newId now = .error SubmitError.notFound) ∧
    (∀ i, db.items.find? (fun i2 => i2.id == c.lostFoundItemId) = some i →
      i.isClaimed = true →
      createLostFoundClaim db c newId now = .error SubmitError.alreadyClaimed) ∧
    (∀ i, db.items.find? (fun i2 => i2.id == c.lostFoundItemId) = some i →
      i.isClaimed = false →
      (∃ k ∈ db.claims, k.lostFoundItemId = c.lostFoundItemId ∧
        k.claimantId = c.claimantId ∧ k.status = ClaimStatus.pending) →
      createLostFoundClaim db c newId now = .error SubmitError.duplicatePendingClaim) ∧
    (∀ i, db.items.find? (fun i2 => i2.id == c.lostFoundItemId) = some i →
      i.isClaimed = false →
      (∀ k ∈ db.claims, ¬(k.lostFoundItemId = c.lostFoundItemId ∧
        k.claimantId = c.claimantId ∧ k.status = ClaimStatus.pending)) →
      ∃ db2 k, createLostFoundClaim db c newId now = .ok (db2, k) ∧
        k.claimantId = c.claimantId ∧ k.status = ClaimStatus.pending) := by
  refine ⟨?_, ?_, ?_, ?_⟩
  · intro h
    unfold createLostFoundClaim
    rw [h]
  · intro i hf hic
    unfold createLostFoundClaim
    rw [hf]
    simp [hic]
  · intro i hf hic hdup
    obtain ⟨k0, hk0, h1, h2, h3⟩ := hdup
    have hsome : (db.claims.find? (fun k =>
        k.lostFoundItemId == c.lostFoundItemId &&
        k.claimantId == c.claimantId &&
        decide (k.status = ClaimStatus.pending))).isSome := by
      rw [List.find?_isSome]
      exact ⟨k0, hk0, by simp [h1, h2, h3]⟩
    obtain ⟨k1, hk1⟩ := Option.isSome_iff_exists.mp hsome
    unfold createLostFoundClaim
    rw [hf, hk1]
    simp [hic]
  · intro i hf hic hnone
    unfold createLostFoundClaim
    rw [hf]
    simp only [hic, Bool.false_eq_true, if_false]
    have hcf : db.claims.find? (fun k =>
        k.lostFoundItemId == c.lostFoundItemId &&
        k.claimantId == c.claimantId &&
        decide (k.status = ClaimStatus.pending)) = none := by
      rw [List.find?_eq_none]
      intro k hk
      simp only [Bool.and_eq_true, beq_iff_eq, decide_eq_true_eq]
      intro h1
      exact hnone k hk ⟨h1.1.1, h1.1.2, h1.2⟩
    rw [hcf]
    exact ⟨_, _, rfl, rfl, rfl⟩

theorem submit_checks_in_order_witness :
    ∃ db2 k,
      createLostFoundClaim
        ⟨[itemA], [mkClaim "k0" "i1" "s1" ClaimStatus.rejected]⟩
        sampleNewClaim "k9" 9 = .ok (db2, k) ∧
      k.claimantId = sampleNewClaim.claimantId ∧ k.status = ClaimStatus.pending :=
  (submit_checks_in_order
      ⟨[itemA], [mkClaim "k0" "i1" "s1" ClaimStatus.rejected]⟩
      sampleNewClaim "k9" 9).2.2.2 itemA (by decide) (by decide) (by decide)

/-! ### C6 -/

/-- C6: `rejectClaim` is a single-row update applied regardless of the
claim's prior status, returning true iff a row with that id exists; the
items table and every sibling claim are untouched, and no row is added or
removed. -/
theorem reject_single_row (db : DB) (claimId reviewerId notes : String) (now : Nat) :
    ((rejectLostFoundClaim db claimId reviewerId (some notes) now).1 = true ↔
      ∃ k ∈ db.claims, k.id = claimId) ∧
    (rejectLostFoundClaim db claimId reviewerId (some notes) now).2.items = db.items ∧
    (∀ k ∈ db.claims, k.id ≠ claimId →
      k ∈ (rejectLostFoundClaim db claimId reviewerId (some notes) now).2.claims) ∧
    (∀ k ∈ db.claims, k.id = claimId →
      { k with
        status := ClaimStatus.rejected
        reviewedBy := some reviewerId
        reviewNotes := some notes
        updatedAt := now } ∈
        (rejectLostFoundClaim db claimId reviewerId (some notes) now).2.claims) ∧
    (rejectLostFoundClaim db claimId reviewerId (some notes) now).2.claims.length =
      db.claims.length := by
  refine ⟨?_, rfl, ?_, ?_, by simp [rejectLostFoundClaim]⟩
  · simp [rejectLostFoundClaim, List.any_eq_true]
  · intro k hk hne
    exact List.mem_map.mpr ⟨k, hk, by simp [rejectLostFoundClaim, hne]⟩
  · intro k hk hid
    exact List.mem_map.mpr ⟨k, hk, by simp [rejectLostFoundClaim, hid, setOpt]⟩

theorem reject_single_row_witness :
    { mkClaim "k1" "i1" "s1" ClaimStatus.approved with
      status := ClaimStatus.rejected
      reviewedBy := some "a1"
      reviewNotes := some "again"
      updatedAt := 7 } ∈
      (rejectLostFoundClaim
        ⟨[itemA], [mkClaim "k1" "i1" "s1" ClaimStatus.approved]⟩
        "k1" "a1" (some "again") 7).2.claims :=
  (reject_single_row
      ⟨[itemA], [mkClaim "k1" "i1" "s1" ClaimStatus.approved]⟩
      "k1" "a1" "again" 7).2.2.2.1
    (mkClaim "k1" "i1" "s1" ClaimStatus.approved) (by simp) rfl

/-! ### C7 -/

/-- C7: a successful `submitClaim` performs exactly one insert: the new
claim row is appended with status pending, null reviewer fields, and
`proofFiles` defaulting to the empty list when omitted; the items table is
untouched and no other claim row is modified. -/
theorem submit_insert_only (db : DB) (c : NewLostFoundClaim) (newId : String)
    (now : Nat) (db2 : DB) (k : LostFoundClaim)
    (h : createLostFoundClaim db c newId now = .ok (db2, k)) :
    db2.items = db.items ∧ db2.claims = db.claims ++ [k] ∧
    k.status = ClaimStatus.pending ∧ k.reviewedBy = none ∧ k.reviewNotes = none ∧
    (c.proofFiles = none → k.proofFiles = []) := by
  unfold createLostFoundClaim at h
  split at h
  · exact absurd h (by simp)
  · split at h
    · exact absurd h (by simp)
    · split at h
      · exact absurd h (by simp)
      · simp only [Except.ok.injEq, Prod.mk.injEq] at h
        obtain ⟨hdb, hk⟩ := h
        subst hdb
        subst hk
        refine ⟨rfl, rfl, rfl, rfl, rfl, ?_⟩
        intro hpf
        simp [hpf]

theorem submit_insert_only_witness :
    (⟨[itemA],
      [{ id := "k9"
         lostFoundItemId := "i1"
         claimantId := "s1"
         description := "mine"
         brand := none
         model := none
         serialNumber := none
         color := none
         purchaseDate := none
         purchaseLocation := none
         estimatedValue := none
         additionalIdentifiers := none
         contactPreference := none
         proofFiles := []
         identificationPhotos := []
         status := ClaimStatus.pending
         reviewedBy := none
         reviewNotes := none
         createdAt := 9
         updatedAt := 9 }]⟩ : DB).items = (⟨[itemA], []⟩ : DB).items ∧
    (⟨[itemA],
      [{ id := "k9"
         lostFoundItemId := "i1"
         claimantId := "s1"
         description := "mine"
         brand := none
         model := none
         serialNumber := none
         color := none
         purchaseDate := none
         purchaseLocation := none
         estimatedValue := none
         additionalIdentifiers := none
         contactPreference := none
         proofFiles := []
         identificationPhotos := []
         status := ClaimStatus.pending
         reviewedBy := none
         reviewNotes := none
         createdAt := 9
         updatedAt := 9 }]⟩ : DB).claims = (⟨[itemA], []⟩ : DB).claims ++
      [{ id := "k9"
         lostFoundItemId := "i1"
         claimantId := "s1"
         description := "mine"
         brand := none
         model := none
         serialNumber := none
         color := none
         purchaseDate := none
         purchaseLocation := none
         estimatedValue := none
         additionalIdentifiers := none
         contactPreference := none
         proofFiles := []
         identificationPhotos := []
         status := ClaimStatus.pending
         reviewedBy := none
         reviewNotes := none
         createdAt := 9
         updatedAt := 9 }] ∧
    ({ id := "k9"
       lostFoundItemId := "i1"
       claimantId := "s1"
       description := "mine"
       brand := none
       model := none
       serialNumber := none
       color := none
       purchaseDate := none
       purchaseLocation := none
       estimatedValue := none
       additionalIdentifiers := none
       contactPreference := none
       proofFiles := []
       identificationPhotos := []
       status := ClaimStatus.pending
       reviewedBy := none
       reviewNotes := none
       createdAt := 9
       updatedAt := 9 } : LostFoundClaim).status = ClaimStatus.pending ∧
    ({ id := "k9"
       lostFoundItemId := "i1"
       claimantId := "s1"
       description := "mine"
       brand := none
       model := none
       serialNumber := none
       color := none
       purchaseDate := none
       purchaseLocation := none
       estimatedValue := none
       additionalIdentifiers := none
       contactPreference := none
       proofFiles := []
       identificationPhotos := []
       status := ClaimStatus.pending
       reviewedBy := none
       reviewNotes := none
       createdAt := 9
       updatedAt := 9 } : LostFoundClaim).reviewedBy = none ∧
    ({ id := "k9"
       lostFoundItemId := "i1"
       claimantId := "s1"
       description := "mine"
       brand := none
       model := none
       serialNumber := none
       color := none
       purchaseDate := none
       purchaseLocation := none
       estimatedValue := none
       additionalIdentifiers := none
       contactPreference := none
       proofFiles := []
       identificationPhotos := []
       status := ClaimStatus.pending
       reviewedBy := none
       reviewNotes := none
       createdAt := 9
       updatedAt := 9 } : LostFoundClaim).reviewNotes = none ∧
    (sampleNewClaim.proofFiles = none →
      ({ id := "k9"
         lostFoundItemId := "i1"
         claimantId := "s1"
         description := "mine"
         brand := none
         model := none
         serialNumber := none
         color := none
         purchaseDate := none
         purchaseLocation := none
         estimatedValue := none
         additionalIdentifiers := none
         contactPreference := none
         proofFiles := []
         identificationPhotos := []
         status := ClaimStatus.pending
         reviewedBy := none
         reviewNotes := none
         createdAt := 9
         updatedAt := 9 } : LostFoundClaim).proofFiles = []) :=
  submit_insert_only ⟨[itemA], []⟩ sampleNewClaim "k9" 9 _ _ (by rfl)

/-! ### C10 -/

/-- C10: the public creation interface cannot produce a pre-claimed item:
the zod insert schema strips `isClaimed`/`claimedBy` from client input, and
for every accepted input `createLostFoundItem` creates the item with
`isClaimed = false` and `claimedBy = null`. -/
theorem create_item_starts_unclaimed (r : RawItemInput) (d : InsertLostFoundItemData)
    (_hp : parseInsertLostFoundItem r = some d)
    (db : DB) (postedBy : String) (photos : Option (List String))
    (newId : String) (now : Nat) :
    (createLostFoundItem db
      { title := d.title
        description := d.description
        category := d.category
        foundLocation := d.foundLocation
        postedBy := postedBy
        photos := photos } newId now).2.isClaimed = false ∧
    (createLostFoundItem db
      { title := d.title
        description := d.description
        category := d.category
        foundLocation := d.foundLocation
        postedBy := postedBy
        photos := photos } newId now).2.claimedBy = none ∧
    (createLostFoundItem db
      { title := d.title
        description := d.description
        category := d.category
        foundLocation := d.foundLocation
        postedBy := postedBy
        photos := photos } newId now).2 ∈
      (createLostFoundItem db
        { title := d.title
          description := d.description
          category := d.category
          foundLocation := d.foundLocation
          postedBy := postedBy
          photos := photos } newId now).1.items := by
  refine ⟨rfl, rfl, ?_⟩
  simp [createLostFoundItem]

theorem create_item_starts_unclaimed_witness :
    (createLostFoundItem ⟨[], []⟩
      { title := "Laptop"
        description := "Black laptop"
        category := "gadgets"
        foundLocation := "Library"
        postedBy := "a1"
        photos := none } "i9" 3).2.isClaimed = false ∧
    (createLostFoundItem ⟨[], []⟩
      { title := "Laptop"
        description := "Black laptop"
        category := "gadgets"
        foundLocation := "Library"
        postedBy := "a1"
        photos := none } "i9" 3).2.claimedBy = none ∧
    (createLostFoundItem ⟨[], []⟩
      { title := "Laptop"
        description := "Black laptop"
        category := "gadgets"
        foundLocation := "Library"
        postedBy := "a1"
        photos := none } "i9" 3).2 ∈
      (createLostFoundItem ⟨[], []⟩
        { title := "Laptop"
          description := "Black laptop"
          category := "gadgets"
          foundLocation := "Library"
          postedBy := "a1"
          photos := none } "i9" 3).1.items :=
  create_item_starts_unclaimed
    { title := "Laptop"
      description := "Black laptop"
      category := "gadgets"
      foundLocation := "Library"
      isClaimed := some true
      claimedBy := some (some "mallory") }
    { title := "Laptop"
      description := "Black laptop"
      category := "gadgets"
      foundLocation := "Library" }
    (by decide) ⟨[], []⟩ "a1" none "i9" 3

/-! ### The successful approve transaction -/

/-- When the target claim is pending and its item exists unclaimed,
`approveLostFoundClaim` returns true and applies the three updates of the
transaction. -/
theorem approve_success_eq (db : DB) (hwf : WF db)
    (k : LostFoundClaim) (hk : k ∈ db.claims) (hkp : k.status = ClaimStatus.pending)
    (i : LostFoundItem) (hi : i ∈ db.items) (hid : i.id = k.lostFoundItemId)
    (hic : i.isClaimed = false) (rev : String) (n : Option String) (now : Nat) :
    approveLostFoundClaim db k.id rev n now =
      (true,
       { items := db.items.map (claimItemUpd k.lostFoundItemId k.claimantId now)
         claims := (db.claims.map (approveTargetUpd k.id rev n now)).map
           (autoRejectUpd k.lostFoundItemId k.id rev now) }) := by
  have h1 : db.claims.find? (fun x => x.id == k.id) = some k :=
    find_id_of_nodup (fun x => x.id) db.claims hwf.1 k hk
  have h2 : db.items.find? (fun x => x.id == k.lostFoundItemId) = some i := by
    rw [← hid]
    exact find_id_of_nodup (fun x => x.id) db.items hwf.2 i hi
  unfold approveLostFoundClaim
  rw [h1]
  simp [hkp, h2, hic]

/-- The target-claim updater leaves row ids unchanged. -/
theorem approveTargetUpd_id (claimId rev : String) (n : Option String) (now : Nat)
    (k : LostFoundClaim) : (approveTargetUpd claimId rev n now k).id = k.id := by
  unfold approveTargetUpd
  split <;> rfl

/-- The auto-reject updater leaves row ids unchanged. -/
theorem autoRejectUpd_id (itemId claimId rev : String) (now : Nat)
    (k : LostFoundClaim) : (autoRejectUpd itemId claimId rev now k).id = k.id := by
  unfold autoRejectUpd
  split <;> rfl

/-- The item updater leaves row ids unchanged. -/
theorem claimItemUpd_id (itemId claimant : String) (now : Nat)
    (i : LostFoundItem) : (claimItemUpd itemId claimant now i).id = i.id := by
  unfold claimItemUpd
  split <;> rfl

/-- Image of the winning claim under the transaction's claim updates. -/
theorem approve_upd_target (k : LostFoundClaim) (rev : String) (n : Option String)
    (now : Nat) :
    autoRejectUpd k.lostFoundItemId k.id rev now (approveTargetUpd k.id rev n now k) =
      { k with
        status := ClaimStatus.approved
        reviewedBy := some rev
        reviewNotes := setOpt n k.reviewNotes
        updatedAt := now } := by
  rw [approveTargetUpd, if_pos rfl, autoRejectUpd, if_neg]
  intro h
  cases h.2.1

/-- Image of a different, still-pending claim on the same item. -/
theorem approve_upd_sibling_pending (k d : LostFoundClaim) (rev : String)
    (n : Option String) (now : Nat) (hne : d.id ≠ k.id)
    (hit : d.lostFoundItemId = k.lostFoundItemId) (hdp : d.status = ClaimStatus.pending) :
    autoRejectUpd k.lostFoundItemId k.id rev now (approveTargetUpd k.id rev n now d) =
      { d with
        status := ClaimStatus.rejected
        reviewedBy := some rev
        reviewNotes := some autoRejectNote
        updatedAt := now } := by
  rw [approveTargetUpd, if_neg hne, autoRejectUpd, if_pos ⟨hit, hdp, hne⟩]

/-- Image of a different claim that is not pending: unchanged. -/
theorem approve_upd_sibling_resolved (k d : LostFoundClaim) (rev : String)
    (n : Option String) (now : Nat) (hne : d.id ≠ k.id)
    (hdp : d.status ≠ ClaimStatus.pending) :
    autoRejectUpd k.lostFoundItemId k.id rev now (approveTargetUpd k.id rev n now d) = d := by
  rw [approveTargetUpd, if_neg hne, autoRejectUpd, if_neg]
  intro h
  exact hdp h.2.1

/-- Image of a different claim on a different item: unchanged. -/
theorem approve_upd_other_item (k d : LostFoundClaim) (rev : String)
    (n : Option String) (now : Nat) (hne : d.id ≠ k.id)
    (hit : d.lostFoundItemId ≠ k.lostFoundItemId) :
    autoRejectUpd k.lostFoundItemId k.id rev now (approveTargetUpd k.id rev n now d) = d := by
  rw [approveTargetUpd, if_neg hne, autoRejectUpd, if_neg]
  intro h
  exact hit h.1

/-! ### C2 -/

/-- C2: for a pending claim whose item exists with `isClaimed = false`,
`approveClaim(claimId, reviewerId, notes)` returns true; afterwards the
claim is approved with the reviewer and notes recorded and `updatedAt`
bumped, and the item is claimed by the claim's claimant with `updatedAt`
bumped. -/
theorem approve_happy_path (db : DB) (hwf : WF db)
    (k : LostFoundClaim) (hk : k ∈ db.claims) (hkp : k.status = ClaimStatus.pending)
    (i : LostFoundItem) (hi : i ∈ db.items) (hid : i.id = k.lostFoundItemId)
    (hic : i.isClaimed = false) (reviewerId notes : String) (now : Nat) :
    (approveLostFoundClaim db k.id reviewerId (some notes) now).1 = true ∧
    ({ k with
       status := ClaimStatus.approved
       reviewedBy := some reviewerId
       reviewNotes := some notes
       updatedAt := now } ∈
      (approveLostFoundClaim db k.id reviewerId (some notes) now).2.claims) ∧
    (∀ k2 ∈ (approveLostFoundClaim db k.id reviewerId (some notes) now).2.claims,
      k2.id = k.id →
      k2.status = ClaimStatus.approved ∧ k2.reviewedBy = some reviewerId ∧
      k2.reviewNotes = some notes ∧ k2.updatedAt = now) ∧
    ({ i with
       isClaimed := true
       claimedBy := some k.claimantId
       updatedAt := now } ∈
      (approveLostFoundClaim db k.id reviewerId (some notes) now).2.items) ∧
    (∀ i2 ∈ (approveLostFoundClaim db k.id reviewerId (some notes) now).2.items,
      i2.id = i.id →
      i2.isClaimed = true ∧ i2.claimedBy = some k.claimantId ∧ i2.updatedAt = now) := by
  rw [approve_success_eq db hwf k hk hkp i hi hid hic reviewerId (some notes) now]
  refine ⟨rfl, ?_, ?_, ?_, ?_⟩
  · rw [List.map_map]
    refine List.mem_map.mpr ⟨k, hk, ?_⟩
    rw [Function.comp_apply, approve_upd_target]
    rfl
  · intro k2 hk2 hk2id
    rw [List.map_map] at hk2
    obtain ⟨d, hd, hdeq⟩ := List.mem_map.mp hk2
    have hdid : d.id = k.id := by
      rw [← hk2id, ← hdeq]
      simp [Function.comp, autoRejectUpd_id, approveTargetUpd_id]
    have hdk : d = k := List.inj_on_of_nodup_map hwf.1 hd hk hdid
    subst hdk
    rw [Function.comp_apply, approve_upd_target] at hdeq
    rw [← hdeq]
    exact ⟨rfl, rfl, rfl, rfl⟩
  · refine List.mem_map.mpr ⟨i, hi, ?_⟩
    rw [claimItemUpd, if_pos (by simpa using hid)]
  · intro i2 hi2 hi2id
    obtain ⟨j, hj, hjeq⟩ := List.mem_map.mp hi2
    have hjid : j.id = i.id := by
      rw [← hi2id, ← hjeq, claimItemUpd_id]
    have hji : j = i := List.inj_on_of_nodup_map hwf.2 hj hi hjid
    subst hji
    rw [claimItemUpd, if_pos (by simpa using hid)] at hjeq
    rw [← hjeq]
    exact ⟨rfl, rfl, rfl⟩

theorem approve_happy_path_witness :
    (approveLostFoundClaim
      ⟨[itemA], [mkClaim "k1" "i1" "s1" ClaimStatus.pending]⟩
      "k1" "a1" (some "verified serial") 5).1 = true ∧
    ({ mkClaim "k1" "i1" "s1" ClaimStatus.pending with
       status := ClaimStatus.approved
       reviewedBy := some "a1"
       reviewNotes := some "verified serial"
       updatedAt := 5 } ∈
      (approveLostFoundClaim
        ⟨[itemA], [mkClaim "k1" "i1" "s1" ClaimStatus.pending]⟩
        "k1" "a1" (some "verified serial") 5).2.claims) ∧
    (∀ k2 ∈ (approveLostFoundClaim
        ⟨[itemA], [mkClaim "k1" "i1" "s1" ClaimStatus.pending]⟩
        "k1" "a1" (some "verified serial") 5).2.claims,
      k2.id = (mkClaim "k1" "i1" "s1" ClaimStatus.pending).id →
      k2.status = ClaimStatus.approved ∧ k2.reviewedBy = some "a1" ∧
      k2.reviewNotes = some "verified serial" ∧ k2.updatedAt = 5) ∧
    ({ itemA with
       isClaimed := true
       claimedBy := some (mkClaim "k1" "i1" "s1" ClaimStatus.pending).claimantId
       updatedAt := 5 } ∈
      (approveLostFoundClaim
        ⟨[itemA], [mkClaim "k1" "i1" "s1" ClaimStatus.pending]⟩
        "k1" "a1" (some "verified serial") 5).2.items) ∧
    (∀ i2 ∈ (approveLostFoundClaim
        ⟨[itemA], [mkClaim "k1" "i1" "s1" ClaimStatus.pending]⟩
        "k1" "a1" (some "verified serial") 5).2.items,
      i2.id = itemA.id →
      i2.isClaimed = true ∧
      i2.claimedBy = some (mkClaim "k1" "i1" "s1" ClaimStatus.pending).claimantId ∧
      i2.updatedAt = 5) :=
  approve_happy_path
    ⟨[itemA], [mkClaim "k1" "i1" "s1" ClaimStatus.pending]⟩ ⟨by decide, by decide⟩
    (mkClaim "k1" "i1" "s1" ClaimStatus.pending) (by decide) (by decide)
    itemA (by decide) (by decide) (by decide) "a1" "verified serial" 5

/-! ### C3 -/

/-- C3 counterexample: approving claim k1 auto-rejects sibling k2, but the
note the code writes is "Automatically rejected - item was claimed by
another user", not the message quoted in the claim ("automatically rejected
— item was claimed by another user"). -/
theorem approve_note_string_cex :
    (approveLostFoundClaim
      ⟨[itemA], [mkClaim "k1" "i1" "s1" ClaimStatus.pending,
                 mkClaim "k2" "i1" "s2" ClaimStatus.pending]⟩
      "k1" "a1" (some "ok") 5).1 = true ∧
    ((approveLostFoundClaim
      ⟨[itemA], [mkClaim "k1" "i1" "s1" ClaimStatus.pending,
                 mkClaim "k2" "i1" "s2" ClaimStatus.pending]⟩
      "k1" "a1" (some "ok") 5).2.claims.find? (fun k => k.id == "k2")).map
        (fun k => k.reviewNotes) = some (some autoRejectNote) ∧
    autoRejectNote ≠ "automatically rejected — item was claimed by another user" := by
  refine ⟨by decide, by decide, ?_⟩
  decide

/-- C3 (amended: the fixed system message is the code's string
"Automatically rejected - item was claimed by another user"): when
approveClaim succeeds, every other claim on the same item that was still
pending is set to rejected with the reviewer and that fixed note; claims
already approved or rejected, and claims of other items, are untouched; and
the approved claim itself ends approved, not auto-rejected. -/
theorem approve_auto_rejects_others (db : DB) (hwf : WF db)
    (k : LostFoundClaim) (hk : k ∈ db.claims) (hkp : k.status = ClaimStatus.pending)
    (i : LostFoundItem) (hi : i ∈ db.items) (hid : i.id = k.lostFoundItemId)
    (hic : i.isClaimed = false) (reviewerId notes : String) (now : Nat) :
    (approveLostFoundClaim db k.id reviewerId (some notes) now).1 = true ∧
    (∀ d ∈ db.claims, d.id ≠ k.id → d.lostFoundItemId = k.lostFoundItemId →
      d.status = ClaimStatus.pending →
      { d with
        status := ClaimStatus.rejected
        reviewedBy := some reviewerId
        reviewNotes := some autoRejectNote
        updatedAt := now } ∈
        (approveLostFoundClaim db k.id reviewerId (some notes) now).2.claims) ∧
    (∀ d ∈ db.claims, d.id ≠ k.id → d.status ≠ ClaimStatus.pending →
      d ∈ (approveLostFoundClaim db k.id reviewerId (some notes) now).2.claims) ∧
    (∀ d ∈ db.claims, d.id ≠ k.id → d.lostFoundItemId ≠ k.lostFoundItemId →
      d ∈ (approveLostFoundClaim db k.id reviewerId (some notes) now).2.claims) ∧
    (∀ k2 ∈ (approveLostFoundClaim db k.id reviewerId (some notes) now).2.claims,
      k2.id = k.id → k2.status = ClaimStatus.approved) := by
  rw [approve_success_eq db hwf k hk hkp i hi hid hic reviewerId (some notes) now]
  simp only [List.map_map]
  refine ⟨trivial, ?_, ?_, ?_, ?_⟩
  · intro d hd hne hit hdp
    refine List.mem_map.mpr ⟨d, hd, ?_⟩
    rw [Function.comp_apply, approve_upd_sibling_pending k d reviewerId (some notes) now hne hit hdp]
  · intro d hd hne hdp
    refine List.mem_map.mpr ⟨d, hd, ?_⟩
    rw [Function.comp_apply, approve_upd_sibling_resolved k d reviewerId (some notes) now hne hdp]
  · intro d hd hne hit
    refine List.mem_map.mpr ⟨d, hd, ?_⟩
    rw [Function.comp_apply, approve_upd_other_item k d reviewerId (some notes) now hne hit]
  · intro k2 hk2 hk2id
    obtain ⟨d, hd, hdeq⟩ := List.mem_map.mp hk2
    have hdid : d.id = k.id := by
      rw [← hk2id, ← hdeq]
      simp [Function.comp, autoRejectUpd_id, approveTargetUpd_id]
    have hdk : d = k := List.inj_on_of_nodup_map hwf.1 hd hk hdid
    subst hdk
    rw [Function.comp_apply, approve_upd_target] at hdeq
    rw [← hdeq]

theorem approve_auto_rejects_others_witness :
    { mkClaim "k2" "i1" "s2" ClaimStatus.pending with
      status := ClaimStatus.rejected
      reviewedBy := some "a1"
      reviewNotes := some autoRejectNote
      updatedAt := 5 } ∈
      (approveLostFoundClaim
        ⟨[itemA], [mkClaim "k1" "i1" "s1" ClaimStatus.pending,
                   mkClaim "k2" "i1" "s2" ClaimStatus.pending,
                   mkClaim "k3" "i1" "s3" ClaimStatus.rejected]⟩
        "k1" "a1" (some "ok") 5).2.claims :=
  (approve_auto_rejects_others
    ⟨[itemA], [mkClaim "k1" "i1" "s1" ClaimStatus.pending,
               mkClaim "k2" "i1" "s2" ClaimStatus.pending,
               mkClaim "k3" "i1" "s3" ClaimStatus.rejected]⟩
    ⟨by decide, by decide⟩
    (mkClaim "k1" "i1" "s1" ClaimStatus.pending) (by decide) (by decide)
    itemA (by decide) (by decide) (by decide) "a1" "ok" 5).2.1
    (mkClaim "k2" "i1" "s2" ClaimStatus.pending) (by decide) (by decide)
    (by decide) (by decide)

/-! ### C8 -/

instance (i : LostFoundItem) : Decidable (itemInv i) := by
  unfold itemInv
  infer_instance

instance (db : DB) : Decidable (dbInv db) := by
  unfold dbInv
  exact List.decidableBAll _ _

/-- C8 counterexample: the storage-level `updateLostFoundItem` takes an
arbitrary `Partial<LostFoundItem>`; an update setting `isClaimed` to true
without supplying `claimedBy` breaks the claimedBy-iff-isClaimed invariant. -/
theorem update_item_inv_cex :
    dbInv ⟨[itemA], []⟩ ∧
    ¬ dbInv (updateLostFoundItem ⟨[itemA], []⟩ "i1"
      { title := none
        description := none
        category := none
        foundLocation := none
        photos := none
        postedBy := none
        isClaimed := some true
        claimedBy := none } 5).2 := by
  decide

/-- C8 (amended: item update preserves the invariant only when the update
does not touch the coupled fields `isClaimed`/`claimedBy`, as the HTTP
route's field whitelist guarantees): the claimedBy-iff-isClaimed invariant
is preserved by item creation, submitClaim, approveClaim and rejectClaim
unconditionally, and by item update when the partial update carries neither
`isClaimed` nor `claimedBy`. -/
theorem inv_preserved (db : DB) (hinv : dbInv db) :
    (∀ it newId now, dbInv (createLostFoundItem db it newId now).1) ∧
    (∀ c newId now db2 k, createLostFoundClaim db c newId now = .ok (db2, k) →
      dbInv db2) ∧
    (∀ cid rev n now, dbInv (approveLostFoundClaim db cid rev n now).2) ∧
    (∀ cid rev n now, dbInv (rejectLostFoundClaim db cid rev n now).2) ∧
    (∀ id u now, u.isClaimed = none → u.claimedBy = none →
      dbInv (updateLostFoundItem db id u now).2) := by
  refine ⟨?_, ?_, ?_, ?_, ?_⟩
  · intro it newId now i hi
    rcases List.mem_append.mp hi with hl | hr
    · exact hinv i hl
    · rw [List.mem_singleton.mp hr]
      rfl
  · intro c newId now db2 k h
    unfold createLostFoundClaim at h
    split at h
    · exact absurd h (by simp)
    · split at h
      · exact absurd h (by simp)
      · split at h
        · exact absurd h (by simp)
        · simp only [Except.ok.injEq, Prod.mk.injEq] at h
          rw [← h.1]
          exact hinv
  · intro cid rev n now
    unfold approveLostFoundClaim
    cases hf : db.claims.find? (fun x => x.id == cid) with
    | none => exact hinv
    | some c =>
      dsimp only
      by_cases hcp : c.status = ClaimStatus.pending
      · rw [if_pos hcp]
        cases hfi : db.items.find? (fun x => x.id == c.lostFoundItemId) with
        | none => exact hinv
        | some it =>
          dsimp only
          by_cases hit : it.isClaimed = true
          · rw [if_pos hit]
            exact hinv
          · rw [if_neg hit]
            intro i hi
            obtain ⟨j, hj, hjeq⟩ := List.mem_map.mp hi
            rw [← hjeq]
            unfold claimItemUpd
            split
            · rfl
            · exact hinv j hj
      · rw [if_neg hcp]
        exact hinv
  · intro cid rev n now
    exact hinv
  · intro id u now hicl hcb i hi
    obtain ⟨j, hj, hjeq⟩ := List.mem_map.mp hi
    rw [← hjeq]
    split
    · unfold itemInv applyItemUpdates
      simp only [hicl, hcb, Option.getD_none]
      exact hinv j hj
    · exact hinv j hj

theorem inv_preserved_witness :
    dbInv (approveLostFoundClaim
      ⟨[itemA], [mkClaim "k1" "i1" "s1" ClaimStatus.pending]⟩
      "k1" "a1" (some "ok") 5).2 :=
  (inv_preserved ⟨[itemA], [mkClaim "k1" "i1" "s1" ClaimStatus.pending]⟩
    (by decide)).2.2.1 "k1" "a1" (some "ok") 5

/-! ### C9 -/

/-- A claimed item used in concrete instantiations. -/
def itemB : LostFoundItem :=
  { itemA with isClaimed := true, claimedBy := some "s1" }

/-- C9: once an item's `isClaimed` is true, neither `approveClaim` (whose
in-transaction item re-read returns false on a claimed item) nor
`rejectClaim` (which only ever writes status rejected) can move a
not-yet-approved claim on that item to approved, whatever the call's
arguments. -/
theorem claimed_item_stays_claimed (db : DB) (hwf : WF db)
    (i : LostFoundItem) (hi : i ∈ db.items) (hic : i.isClaimed = true)
    (k : LostFoundClaim) (hk : k ∈ db.claims) (hki : k.lostFoundItemId = i.id)
    (hka : k.status ≠ ClaimStatus.approved) :
    (∀ cid rev n now, ∀ k2 ∈ (approveLostFoundClaim db cid rev n now).2.claims,
      k2.id = k.id → k2.status ≠ ClaimStatus.approved) ∧
    (∀ cid rev n now, ∀ k2 ∈ (rejectLostFoundClaim db cid rev n now).2.claims,
      k2.id = k.id → k2.status ≠ ClaimStatus.approved) := by
  constructor
  · intro cid rev n now k2 hk2 hk2id
    revert hk2
    unfold approveLostFoundClaim
    cases hf : db.claims.find? (fun x => x.id == cid) with
    | none =>
      intro hk2
      rw [List.inj_on_of_nodup_map hwf.1 hk2 hk hk2id]
      exact hka
    | some c =>
      dsimp only
      by_cases hcp : c.status = ClaimStatus.pending
      · rw [if_pos hcp]
        cases hfi : db.items.find? (fun x => x.id == c.lostFoundItemId) with
        | none =>
          intro hk2
          rw [List.inj_on_of_nodup_map hwf.1 hk2 hk hk2id]
          exact hka
        | some it =>
          dsimp only
          by_cases hit : it.isClaimed = true
          · rw [if_pos hit]
            intro hk2
            rw [List.inj_on_of_nodup_map hwf.1 hk2 hk hk2id]
            exact hka
          · rw [if_neg hit]
            intro hk2
            by_cases hkc : k.id = cid
            · exfalso
              have hkfind : db.claims.find? (fun x => x.id == k.id) = some k :=
                find_id_of_nodup (fun x => x.id) db.claims hwf.1 k hk
              rw [hkc] at hkfind
              have hck : c = k := Option.some.inj (hf.symm.trans hkfind)
              have hifind : db.items.find? (fun x => x.id == i.id) = some i :=
                find_id_of_nodup (fun x => x.id) db.items hwf.2 i hi
              rw [← hki, ← hck] at hifind
              have hiti : it = i := Option.some.inj (hfi.symm.trans hifind)
              rw [hiti] at hit
              exact hit hic
            · dsimp only at hk2
              rw [List.map_map] at hk2
              obtain ⟨d, hd, hdeq⟩ := List.mem_map.mp hk2
              have hdid : d.id = k.id := by
                rw [← hk2id, ← hdeq]
                simp [Function.comp, autoRejectUpd_id, approveTargetUpd_id]
              have hdk : d = k := List.inj_on_of_nodup_map hwf.1 hd hk hdid
              subst hdk
              rw [← hdeq, Function.comp_apply]
              rw [approveTargetUpd, if_neg (by rw [hdid]; exact hkc)]
              unfold autoRejectUpd
              split
              · intro hcon
                cases hcon
              · exact hka
      · rw [if_neg hcp]
        intro hk2
        rw [List.inj_on_of_nodup_map hwf.1 hk2 hk hk2id]
        exact hka
  · intro cid rev n now k2 hk2 hk2id
    obtain ⟨d, hd, hdeq⟩ := List.mem_map.mp hk2
    have hdid : d.id = k.id := by
      rw [← hk2id, ← hdeq]
      split <;> rfl
    have hdk : d = k := List.inj_on_of_nodup_map hwf.1 hd hk hdid
    subst hdk
    rw [← hdeq]
    split
    · intro hcon
      cases hcon
    · exact hka

theorem claimed_item_stays_claimed_witness :
    (mkClaim "k1" "i1" "s2" ClaimStatus.pending).status ≠ ClaimStatus.approved :=
  (claimed_item_stays_claimed
    ⟨[itemB], [mkClaim "k1" "i1" "s2" ClaimStatus.pending]⟩
    ⟨by decide, by decide⟩
    itemB (by decide) (by decide)
    (mkClaim "k1" "i1" "s2" ClaimStatus.pending) (by decide) (by decide)
    (by decide)).1 "k1" "a1" (some "try") 7
    (mkClaim "k1" "i1" "s2" ClaimStatus.pending) (by decide) (by decide)

/-! ### C1 -/

/-- The claim updates of a successful approval leave the table's id column
unchanged. -/
theorem approve_claims_ids (l : List LostFoundClaim) (itemId claimId rev : String)
    (n : Option String) (now : Nat) :
    ((l.map (approveTargetUpd claimId rev n now)).map
        (autoRejectUpd itemId claimId rev now)).map (fun k => k.id) =
      l.map (fun k => k.id) := by
  rw [List.map_map, List.map_map]
  congr 1
  funext x
  simp [Function.comp, autoRejectUpd_id, approveTargetUpd_id]

/-- Approve calls that target no pending claim of the state leave it
unchanged. -/
theorem runApprovals_noop : ∀ (calls : List ApproveCall) (s : DB),
    (∀ t ∈ calls, ∀ kk ∈ s.claims, kk.id = t.cid → kk.status ≠ ClaimStatus.pending) →
    runApprovals s calls = s := by
  intro calls
  induction calls with
  | nil => intro s _; rfl
  | cons t ts ih =>
    intro s h
    have hstep : (approveLostFoundClaim s t.cid t.reviewer t.notes t.time).2 = s := by
      rw [approve_noop_of_not_pending s t.cid t.reviewer t.notes t.time
        (fun kk hkk hid => h t (List.mem_cons_self t ts) kk hkk hid)]
    simp only [runApprovals, List.foldl_cons]
    rw [hstep]
    exact ih s (fun t2 ht2 => h t2 (List.mem_cons_of_mem t ht2))

/-- C1: if an unclaimed item has pending claims and `approveClaim` is
invoked once for each of several distinct pending claims on it — in any
serialization order, which by the atomicity of each transaction covers
every interleaving — then the first call's claim ends approved, every other
pending claim on the item ends rejected with the auto-reject note, and the
item ends claimed by the winning claimant. -/
theorem single_winner (db : DB) (hwf : WF db)
    (i : LostFoundItem) (hi : i ∈ db.items) (hic : i.isClaimed = false)
    (c0 : ApproveCall) (rest : List ApproveCall)
    (hnodup : ((c0 :: rest).map (fun t => t.cid)).Nodup)
    (hpend : ∀ t ∈ c0 :: rest, ∃ kc ∈ db.claims,
      kc.id = t.cid ∧ kc.status = ClaimStatus.pending ∧ kc.lostFoundItemId = i.id)
    (kw : LostFoundClaim) (hkw : kw ∈ db.claims) (hkwid : kw.id = c0.cid) :
    (∀ k2 ∈ (runApprovals db (c0 :: rest)).claims, k2.id = c0.cid →
      k2.status = ClaimStatus.approved ∧ k2.reviewedBy = some c0.reviewer) ∧
    (∀ d ∈ db.claims, d.lostFoundItemId = i.id → d.status = ClaimStatus.pending →
      d.id ≠ c0.cid →
      ∀ k2 ∈ (runApprovals db (c0 :: rest)).claims, k2.id = d.id →
        k2.status = ClaimStatus.rejected ∧ k2.reviewNotes = some autoRejectNote) ∧
    (∀ i2 ∈ (runApprovals db (c0 :: rest)).items, i2.id = i.id →
      i2.isClaimed = true ∧ i2.claimedBy = some kw.claimantId) := by
  obtain ⟨kc0, hkc0, hkc0id, hkc0p, hkc0it⟩ := hpend c0 (List.mem_cons_self c0 rest)
  have hkc0kw : kc0 = kw := List.inj_on_of_nodup_map hwf.1 hkc0 hkw (hkc0id.trans hkwid.symm)
  have hkwp : kw.status = ClaimStatus.pending := hkc0kw ▸ hkc0p
  have hkwit : kw.lostFoundItemId = i.id := hkc0kw ▸ hkc0it
  have h1 : approveLostFoundClaim db c0.cid c0.reviewer c0.notes c0.time =
      (true,
       { items := db.items.map (claimItemUpd kw.lostFoundItemId kw.claimantId c0.time)
         claims := (db.claims.map (approveTargetUpd kw.id c0.reviewer c0.notes c0.time)).map
           (autoRejectUpd kw.lostFoundItemId kw.id c0.reviewer c0.time) }) := by
    rw [← hkwid]
    exact approve_success_eq db hwf kw hkw hkwp i hi hkwit.symm hic
      c0.reviewer c0.notes c0.time
  have himage : ∀ d ∈ db.claims, d.lostFoundItemId = i.id →
      d.status = ClaimStatus.pending → d.id ≠ c0.cid →
      autoRejectUpd kw.lostFoundItemId kw.id c0.reviewer c0.time
        (approveTargetUpd kw.id c0.reviewer c0.notes c0.time d) =
      { d with
        status := ClaimStatus.rejected
        reviewedBy := some c0.reviewer
        reviewNotes := some autoRejectNote
        updatedAt := c0.time } := by
    intro d hd hdit hdp hdne
    exact approve_upd_sibling_pending kw d c0.reviewer c0.notes c0.time
      (by rw [hkwid]; exact hdne) (hdit.trans hkwit.symm) hdp
  have hrun : runApprovals db (c0 :: rest) =
      { items := db.items.map (claimItemUpd kw.lostFoundItemId kw.claimantId c0.time)
        claims := (db.claims.map (approveTargetUpd kw.id c0.reviewer c0.notes c0.time)).map
          (autoRejectUpd kw.lostFoundItemId kw.id c0.reviewer c0.time) } := by
    simp only [runApprovals, List.foldl_cons]
    rw [h1]
    refine runApprovals_noop rest _ ?_
    intro t ht kk hkk hkid
    have htne : t.cid ≠ c0.cid := by
      intro he
      have hmm : t.cid ∈ rest.map (fun t => t.cid) :=
        List.mem_map_of_mem (fun t => t.cid) ht
      rw [he] at hmm
      exact (List.nodup_cons.mp hnodup).1 hmm
    obtain ⟨kc, hkc, hkcid, hkcp, hkcit⟩ := hpend t (List.mem_cons_of_mem c0 ht)
    rw [List.map_map] at hkk
    obtain ⟨d, hd, hdeq⟩ := List.mem_map.mp hkk
    have hdid : d.id = t.cid := by
      rw [← hkid, ← hdeq]
      simp [Function.comp, autoRejectUpd_id, approveTargetUpd_id]
    have hdkc : d = kc := List.inj_on_of_nodup_map hwf.1 hd hkc (hdid.trans hkcid.symm)
    have himg := himage d hd (hdkc ▸ hkcit) (hdkc ▸ hkcp)
      (by rw [hdid]; exact htne)
    rw [Function.comp_apply] at hdeq
    rw [← hdeq, himg]
    intro hcon
    cases hcon
  rw [hrun]
  refine ⟨?_, ?_, ?_⟩
  · intro k2 hk2 hk2id
    rw [List.map_map] at hk2
    obtain ⟨d, hd, hdeq⟩ := List.mem_map.mp hk2
    have hdid : d.id = kw.id := by
      rw [hkwid, ← hk2id, ← hdeq]
      simp [Function.comp, autoRejectUpd_id, approveTargetUpd_id]
    have hdk : d = kw := List.inj_on_of_nodup_map hwf.1 hd hkw hdid
    subst hdk
    rw [Function.comp_apply, approve_upd_target] at hdeq
    rw [← hdeq]
    exact ⟨rfl, rfl⟩
  · intro d hd hdit hdp hdne k2 hk2 hk2id
    rw [List.map_map] at hk2
    obtain ⟨e, he, heeq⟩ := List.mem_map.mp hk2
    have heid : e.id = d.id := by
      rw [← hk2id, ← heeq]
      simp [Function.comp, autoRejectUpd_id, approveTargetUpd_id]
    have hed : e = d := List.inj_on_of_nodup_map hwf.1 he hd heid
    subst hed
    rw [Function.comp_apply, himage e he hdit hdp hdne] at heeq
    rw [← heeq]
    exact ⟨rfl, rfl⟩
  · intro i2 hi2 hi2id
    obtain ⟨j, hj, hjeq⟩ := List.mem_map.mp hi2
    have hjid : j.id = i.id := by
      rw [← hi2id, ← hjeq, claimItemUpd_id]
    have hji : j = i := List.inj_on_of_nodup_map hwf.2 hj hi hjid
    subst hji
    rw [claimItemUpd, if_pos (by rw [hkwit])] at hjeq
    rw [← hjeq]
    exact ⟨rfl, rfl⟩

theorem single_winner_witness :
    ({ itemA with
       isClaimed := true
       claimedBy := some "s2"
       updatedAt := 5 } : LostFoundItem).isClaimed = true ∧
    ({ itemA with
       isClaimed := true
       claimedBy := some "s2"
       updatedAt := 5 } : LostFoundItem).claimedBy =
      some (mkClaim "k2" "i1" "s2" ClaimStatus.pending).claimantId :=
  (single_winner
    ⟨[itemA], [mkClaim "k1" "i1" "s1" ClaimStatus.pending,
               mkClaim "k2" "i1" "s2" ClaimStatus.pending,
               mkClaim "k3" "i1" "s3" ClaimStatus.pending]⟩
    ⟨by decide, by decide⟩
    itemA (by decide) (by decide)
    ⟨"k2", "a1", some "ok", 5⟩ [⟨"k1", "a2", none, 6⟩, ⟨"k3", "a1", none, 7⟩]
    (by decide) (by decide)
    (mkClaim "k2" "i1" "s2" ClaimStatus.pending) (by decide) (by decide)).2.2
    { itemA with
      isClaimed := true
      claimedBy := some "s2"
      updatedAt := 5 } (by decide) (by decide)
